import Mathlib

/-!
Verification of the CovenantSQL multiplexed chain protocol layer.

Shallow embedding of:
  * `src/sqlchain/mux.go` — the `MuxService` registry and its seven dispatch
    methods (`AdviseNewBlock`, `AdviseBinLog`, `AdviseResponsedQuery`,
    `AdviseAckedQuery`, `FetchBlock`, `FetchAckedQuery`, `SignBilling`);
  * `src/types/bprpc.go` — block-producer RPC message shapes relevant to the
    catalog claims (`FetchLastBlockReq`, `FetchBlockByCountReq`);
  * `src/cmd/cql-proxy/model/project_config.go` — nil-safe config predicates.

Go pointer mutation of the response object is modelled by returning the new
response value; Go's `error` results are modelled as `Option GoError`.  Each
dispatch method additionally returns a ghost `Bool` recording whether the
chain-instance method was invoked (pure instrumentation: `true` exactly on the
branch where the source calls `v.(*ChainRPCService).Method(...)`).
-/

set_option autoImplicit false

namespace CovenantSQL

/-- `proto.DatabaseID` is an opaque string identifier for one chain. -/
abbrev DatabaseID := String

/-- Modelled from the spec: `proto.Envelope` is not under `src/`; the spec
describes it as per-call metadata (originating node identity, request
correlation), read and propagated unchanged by the router. -/
structure Envelope where
  nodeID : String
  correlationID : Nat
  deriving Repr, DecidableEq

/-- Go `error` values seen by the router.  `errUnknownMuxRequest` models the
shared sentinel `ErrUnknownMuxRequest` returned by every mux dispatch method
on a registry miss (defined in the sqlchain package, outside `src/`);
`instanceError` models an arbitrary error value produced by a chain
instance's own method. -/
inductive GoError where
  | errUnknownMuxRequest
  | instanceError (msg : String)
  deriving Repr, DecidableEq

/-! Inner request/response payloads of the seven sqlchain RPC methods.  Their
Go definitions are not under `src/`; `mux.go` treats them as opaque payloads
handed to the chain instance, so each is modelled from the spec as an opaque
payload (the router never inspects it). -/

/-- Modelled from the spec: opaque inner payload of the AdviseNewBlock RPC
request (a fully formed block). -/
structure AdviseNewBlockReq where
  payload : Nat
  deriving Repr, DecidableEq

/-- Modelled from the spec: opaque inner payload of the AdviseNewBlock RPC
response. -/
structure AdviseNewBlockResp where
  payload : Nat
  deriving Repr, DecidableEq

/-- Modelled from the spec: opaque inner payload of the AdviseBinLog RPC
request (a write-ahead log segment). -/
structure AdviseBinLogReq where
  payload : Nat
  deriving Repr, DecidableEq

/-- Modelled from the spec: opaque inner payload of the AdviseBinLog RPC
response. -/
structure AdviseBinLogResp where
  payload : Nat
  deriving Repr, DecidableEq

/-- Modelled from the spec: opaque inner payload of the AdviseResponsedQuery
RPC request (a query with its execution result attached). -/
structure AdviseResponsedQueryReq where
  payload : Nat
  deriving Repr, DecidableEq

/-- Modelled from the spec: opaque inner payload of the AdviseResponsedQuery
RPC response. -/
structure AdviseResponsedQueryResp where
  payload : Nat
  deriving Repr, DecidableEq

/-- Modelled from the spec: opaque inner payload of the AdviseAckedQuery RPC
request (a query acknowledgment). -/
structure AdviseAckedQueryReq where
  payload : Nat
  deriving Repr, DecidableEq

/-- Modelled from the spec: opaque inner payload of the AdviseAckedQuery RPC
response. -/
structure AdviseAckedQueryResp where
  payload : Nat
  deriving Repr, DecidableEq

/-- Modelled from the spec: opaque inner payload of the FetchBlock RPC request
(a height). -/
structure FetchBlockReq where
  payload : Nat
  deriving Repr, DecidableEq

/-- Modelled from the spec: opaque inner payload of the FetchBlock RPC
response. -/
structure FetchBlockResp where
  payload : Nat
  deriving Repr, DecidableEq

/-- Modelled from the spec: opaque inner payload of the FetchAckedQuery RPC
request. -/
structure FetchAckedQueryReq where
  payload : Nat
  deriving Repr, DecidableEq

/-- Modelled from the spec: opaque inner payload of the FetchAckedQuery RPC
response. -/
structure FetchAckedQueryResp where
  payload : Nat
  deriving Repr, DecidableEq

/-- Modelled from the spec: opaque inner payload of the SignBilling RPC
request (a billing record). -/
structure SignBillingReq where
  payload : Nat
  deriving Repr, DecidableEq

/-- Modelled from the spec: opaque inner payload of the SignBilling RPC
response. -/
structure SignBillingResp where
  payload : Nat
  deriving Repr, DecidableEq

/-- Modelled from the spec: the external chain-instance contract
(`*ChainRPCService`, not under `src/`).  For every message-catalog request
type it implements a matching synchronous operation that accepts the inner
request, populates the inner response (modelled by returning the new inner
response value) and returns an error to signal rejection. -/
structure ChainRPCService where
  adviseNewBlock : AdviseNewBlockReq → AdviseNewBlockResp → AdviseNewBlockResp × Option GoError
  adviseBinLog : AdviseBinLogReq → AdviseBinLogResp → AdviseBinLogResp × Option GoError
  adviseResponsedQuery : AdviseResponsedQueryReq → AdviseResponsedQueryResp → AdviseResponsedQueryResp × Option GoError
  adviseAckedQuery : AdviseAckedQueryReq → AdviseAckedQueryResp → AdviseAckedQueryResp × Option GoError
  fetchBlock : FetchBlockReq → FetchBlockResp → FetchBlockResp × Option GoError
  fetchAckedQuery : FetchAckedQueryReq → FetchAckedQueryResp → FetchAckedQueryResp × Option GoError
  signBilling : SignBillingReq → SignBillingResp → SignBillingResp × Option GoError

/-- The registry `serviceMap sync.Map` of `MuxService`, modelled as an
association list keyed by `DatabaseID` (at most one binding per key is kept,
mirroring a map). -/
def ServiceMap := List (DatabaseID × ChainRPCService)

/-- `sync.Map.Load`: the binding for `id`, if present. -/
def ServiceMap.load (m : ServiceMap) (id : DatabaseID) : Option ChainRPCService :=
  (List.find? (fun p => p.1 = id) m).map (fun p => p.2)

/-- `sync.Map.Store`: bind `id` to `service`, replacing any existing binding. -/
def ServiceMap.store (m : ServiceMap) (id : DatabaseID) (service : ChainRPCService) : ServiceMap :=
  (id, service) :: List.filter (fun p => p.1 ≠ id) m

/-- `sync.Map.Delete`: remove the binding for `id` if present. -/
def ServiceMap.delete (m : ServiceMap) (id : DatabaseID) : ServiceMap :=
  List.filter (fun p => p.1 ≠ id) m

/-- `MuxService` of `src/sqlchain/mux.go`: the multiplexing service of
sql-chain, holding the registry.  (`NewMuxService` also registers the service
on an RPC server; the transport is out of scope.) -/
structure MuxService where
  ServiceName : String
  serviceMap : ServiceMap

/-- `(*MuxService).register`: `s.serviceMap.Store(id, service)`.  Total: no
error result, no precondition on prior registry state. -/
def MuxService.register (s : MuxService) (id : DatabaseID) (service : ChainRPCService) : MuxService :=
  { s with serviceMap := s.serviceMap.store id service }

/-- `(*MuxService).unregister`: `s.serviceMap.Delete(id)`. -/
def MuxService.unregister (s : MuxService) (id : DatabaseID) : MuxService :=
  { s with serviceMap := s.serviceMap.delete id }

/-! The fourteen mux-wrapped request/response types of `mux.go`.  Go struct
embedding (`proto.Envelope`, `proto.DatabaseID`, inner payload) is modelled as
explicit fields named after the promoted field accesses in the source. -/

/-- `MuxAdviseNewBlockReq`: envelope + database id + inner request. -/
structure MuxAdviseNewBlockReq where
  envelope : Envelope
  databaseID : DatabaseID
  adviseNewBlockReq : AdviseNewBlockReq
  deriving Repr, DecidableEq

/-- `MuxAdviseNewBlockResp`: envelope + database id + inner response. -/
structure MuxAdviseNewBlockResp where
  envelope : Envelope
  databaseID : DatabaseID
  adviseNewBlockResp : AdviseNewBlockResp
  deriving Repr, DecidableEq

/-- `MuxAdviseBinLogReq`: envelope + database id + inner request. -/
structure MuxAdviseBinLogReq where
  envelope : Envelope
  databaseID : DatabaseID
  adviseBinLogReq : AdviseBinLogReq
  deriving Repr, DecidableEq

/-- `MuxAdviseBinLogResp`: envelope + database id + inner response. -/
structure MuxAdviseBinLogResp where
  envelope : Envelope
  databaseID : DatabaseID
  adviseBinLogResp : AdviseBinLogResp
  deriving Repr, DecidableEq

/-- `MuxAdviseResponsedQueryReq`: envelope + database id + inner request. -/
structure MuxAdviseResponsedQueryReq where
  envelope : Envelope
  databaseID : DatabaseID
  adviseResponsedQueryReq : AdviseResponsedQueryReq
  deriving Repr, DecidableEq

/-- `MuxAdviseResponsedQueryResp`: envelope + database id + inner response. -/
structure MuxAdviseResponsedQueryResp where
  envelope : Envelope
  databaseID : DatabaseID
  adviseResponsedQueryResp : AdviseResponsedQueryResp
  deriving Repr, DecidableEq

/-- `MuxAdviseAckedQueryReq`: envelope + database id + inner request. -/
structure MuxAdviseAckedQueryReq where
  envelope : Envelope
  databaseID : DatabaseID
  adviseAckedQueryReq : AdviseAckedQueryReq
  deriving Repr, DecidableEq

/-- `MuxAdviseAckedQueryResp`: envelope + database id + inner response. -/
structure MuxAdviseAckedQueryResp where
  envelope : Envelope
  databaseID : DatabaseID
  adviseAckedQueryResp : AdviseAckedQueryResp
  deriving Repr, DecidableEq

/-- `MuxFetchBlockReq`: envelope + database id + inner request. -/
structure MuxFetchBlockReq where
  envelope : Envelope
  databaseID : DatabaseID
  fetchBlockReq : FetchBlockReq
  deriving Repr, DecidableEq

/-- `MuxFetchBlockResp`: envelope + database id + inner response. -/
structure MuxFetchBlockResp where
  envelope : Envelope
  databaseID : DatabaseID
  fetchBlockResp : FetchBlockResp
  deriving Repr, DecidableEq

/-- `MuxFetchAckedQueryReq`: envelope + database id + inner request. -/
structure MuxFetchAckedQueryReq where
  envelope : Envelope
  databaseID : DatabaseID
  fetchAckedQueryReq : FetchAckedQueryReq
  deriving Repr, DecidableEq

/-- `MuxFetchAckedQueryResp`: envelope + database id + inner response. -/
structure MuxFetchAckedQueryResp where
  envelope : Envelope
  databaseID : DatabaseID
  fetchAckedQueryResp : FetchAckedQueryResp
  deriving Repr, DecidableEq

/-- `MuxSignBillingReq`: envelope + database id + inner request. -/
structure MuxSignBillingReq where
  envelope : Envelope
  databaseID : DatabaseID
  signBillingReq : SignBillingReq
  deriving Repr, DecidableEq

/-- `MuxSignBillingResp`: envelope + database id + inner response. -/
structure MuxSignBillingResp where
  envelope : Envelope
  databaseID : DatabaseID
  signBillingResp : SignBillingResp
  deriving Repr, DecidableEq

/-- `(*MuxService).AdviseNewBlock`.  The third component is ghost
instrumentation: `true` iff the chain-instance method was invoked. -/
def MuxService.AdviseNewBlock (s : MuxService) (req : MuxAdviseNewBlockReq)
    (resp : MuxAdviseNewBlockResp) : MuxAdviseNewBlockResp × Option GoError × Bool :=
  match s.serviceMap.load req.databaseID with
  | some v =>
    let resp1 := { resp with envelope := req.envelope, databaseID := req.databaseID }
    let r := v.adviseNewBlock req.adviseNewBlockReq resp1.adviseNewBlockResp
    ({ resp1 with adviseNewBlockResp := r.1 }, r.2, true)
  | none => (resp, some GoError.errUnknownMuxRequest, false)

/-- `(*MuxService).AdviseBinLog`. -/
def MuxService.AdviseBinLog (s : MuxService) (req : MuxAdviseBinLogReq)
    (resp : MuxAdviseBinLogResp) : MuxAdviseBinLogResp × Option GoError × Bool :=
  match s.serviceMap.load req.databaseID with
  | some v =>
    let resp1 := { resp with envelope := req.envelope, databaseID := req.databaseID }
    let r := v.adviseBinLog req.adviseBinLogReq resp1.adviseBinLogResp
    ({ resp1 with adviseBinLogResp := r.1 }, r.2, true)
  | none => (resp, some GoError.errUnknownMuxRequest, false)

/-- `(*MuxService).AdviseResponsedQuery`. -/
def MuxService.AdviseResponsedQuery (s : MuxService) (req : MuxAdviseResponsedQueryReq)
    (resp : MuxAdviseResponsedQueryResp) : MuxAdviseResponsedQueryResp × Option GoError × Bool :=
  match s.serviceMap.load req.databaseID with
  | some v =>
    let resp1 := { resp with envelope := req.envelope, databaseID := req.databaseID }
    let r := v.adviseResponsedQuery req.adviseResponsedQueryReq resp1.adviseResponsedQueryResp
    ({ resp1 with adviseResponsedQueryResp := r.1 }, r.2, true)
  | none => (resp, some GoError.errUnknownMuxRequest, false)

/-- `(*MuxService).AdviseAckedQuery`. -/
def MuxService.AdviseAckedQuery (s : MuxService) (req : MuxAdviseAckedQueryReq)
    (resp : MuxAdviseAckedQueryResp) : MuxAdviseAckedQueryResp × Option GoError × Bool :=
  match s.serviceMap.load req.databaseID with
  | some v =>
    let resp1 := { resp with envelope := req.envelope, databaseID := req.databaseID }
    let r := v.adviseAckedQuery req.adviseAckedQueryReq resp1.adviseAckedQueryResp
    ({ resp1 with adviseAckedQueryResp := r.1 }, r.2, true)
  | none => (resp, some GoError.errUnknownMuxRequest, false)

/-- `(*MuxService).FetchBlock`. -/
def MuxService.FetchBlock (s : MuxService) (req : MuxFetchBlockReq)
    (resp : MuxFetchBlockResp) : MuxFetchBlockResp × Option GoError × Bool :=
  match s.serviceMap.load req.databaseID with
  | some v =>
    let resp1 := { resp with envelope := req.envelope, databaseID := req.databaseID }
    let r := v.fetchBlock req.fetchBlockReq resp1.fetchBlockResp
    ({ resp1 with fetchBlockResp := r.1 }, r.2, true)
  | none => (resp, some GoError.errUnknownMuxRequest, false)

/-- `(*MuxService).FetchAckedQuery`. -/
def MuxService.FetchAckedQuery (s : MuxService) (req : MuxFetchAckedQueryReq)
    (resp : MuxFetchAckedQueryResp) : MuxFetchAckedQueryResp × Option GoError × Bool :=
  match s.serviceMap.load req.databaseID with
  | some v =>
    let resp1 := { resp with envelope := req.envelope, databaseID := req.databaseID }
    let r := v.fetchAckedQuery req.fetchAckedQueryReq resp1.fetchAckedQueryResp
    ({ resp1 with fetchAckedQueryResp := r.1 }, r.2, true)
  | none => (resp, some GoError.errUnknownMuxRequest, false)

/-- `(*MuxService).SignBilling`. -/
def MuxService.SignBilling (s : MuxService) (req : MuxSignBillingReq)
    (resp : MuxSignBillingResp) : MuxSignBillingResp × Option GoError × Bool :=
  match s.serviceMap.load req.databaseID with
  | some v =>
    let resp1 := { resp with envelope := req.envelope, databaseID := req.databaseID }
    let r := v.signBilling req.signBillingReq resp1.signBillingResp
    ({ resp1 with signBillingResp := r.1 }, r.2, true)
  | none => (resp, some GoError.errUnknownMuxRequest, false)

/-- The catalog of dispatch methods defined on `MuxService` in
`src/sqlchain/mux.go`: one constructor per method declared there. -/
inductive MuxMethod where
  | adviseNewBlock
  | adviseBinLog
  | adviseResponsedQuery
  | adviseAckedQuery
  | fetchBlock
  | fetchAckedQuery
  | signBilling
  deriving Repr, DecidableEq, Fintype

/-- The Go method name of each `MuxService` dispatch method. -/
def MuxMethod.name : MuxMethod → String
  | .adviseNewBlock => "AdviseNewBlock"
  | .adviseBinLog => "AdviseBinLog"
  | .adviseResponsedQuery => "AdviseResponsedQuery"
  | .adviseAckedQuery => "AdviseAckedQuery"
  | .fetchBlock => "FetchBlock"
  | .fetchAckedQuery => "FetchAckedQuery"
  | .signBilling => "SignBilling"

/-- `FetchLastBlockReq` of `src/types/bprpc.go` (block-producer RPC): it
carries only an envelope — no `DatabaseID` field and no mux wrapper. -/
structure FetchLastBlockReq where
  envelope : Envelope
  deriving Repr, DecidableEq

/-- `FetchBlockByCountReq` of `src/types/bprpc.go` (block-producer RPC): an
envelope and a count — no `DatabaseID` field and no mux wrapper. -/
structure FetchBlockByCountReq where
  envelope : Envelope
  count : Nat
  deriving Repr, DecidableEq

/-! Query lifecycle.  The chain-instance implementation (`ChainRPCService`
internals) is not under `src/`; the lifecycle below is modelled from the
spec's state machine `Submitted → Responsed → Acked → Committed` with the
terminal `Rejected` state. -/

/-- Modelled from the spec: the lifecycle state of a client query. -/
inductive QueryState where
  | submitted
  | responsed
  | acked
  | committed
  | rejected
  deriving Repr, DecidableEq, Fintype

/-- Position of each state along the forward chain; `rejected` is terminal
and off the chain. -/
def QueryState.rank : QueryState → Nat
  | .submitted => 0
  | .responsed => 1
  | .acked => 2
  | .committed => 3
  | .rejected => 4

/-- Modelled from the spec: the chain instance records a query's response on
`AdviseResponsedQuery`, moving it from Submitted to Responsed; a query that
fails verification moves to terminal Rejected; any other state is rejected
with an error and left unchanged. -/
def stepResponsedQuery (verified : Bool) : QueryState → QueryState × Option GoError
  | .submitted =>
    if verified then (.responsed, none)
    else (.rejected, some (GoError.instanceError "query verification failed"))
  | st => (st, some (GoError.instanceError "query unknown or already past this stage"))

/-- Modelled from the spec: the chain instance moves a query from Responsed to
Acked on `AdviseAckedQuery`; a query that fails verification moves to terminal
Rejected; a query not yet Responsed is rejected with an error and left
unchanged. -/
def stepAckedQuery (verified : Bool) : QueryState → QueryState × Option GoError
  | .responsed =>
    if verified then (.acked, none)
    else (.rejected, some (GoError.instanceError "query verification failed"))
  | st => (st, some (GoError.instanceError "query not yet responsed"))

/-- Modelled from the spec: block production commits an Acked query into a
block; any other state is left unchanged with an error. -/
def stepCommitQuery : QueryState → QueryState × Option GoError
  | .acked => (.committed, none)
  | st => (st, some (GoError.instanceError "query not acked"))

/-- One lifecycle step: some lifecycle operation (with some verification
outcome) takes `st` to `st'`. -/
def QueryStep (st st' : QueryState) : Prop :=
  (∃ v, st' = (stepResponsedQuery v st).1) ∨
  (∃ v, st' = (stepAckedQuery v st).1) ∨
  st' = (stepCommitQuery st).1

instance (st st' : QueryState) : Decidable (QueryStep st st') := by
  unfold QueryStep
  have : ∀ p : Bool → Prop, (∀ b, Decidable (p b)) → Decidable (∃ v, p v) := by
    intro p hp
    have : Decidable (p true ∨ p false) := @instDecidableOr _ _ (hp true) (hp false)
    refine this.casesOn (fun h => .isFalse ?_) (fun h => .isTrue ?_)
    · rintro ⟨b, hb⟩
      cases b
      · exact h (Or.inr hb)
      · exact h (Or.inl hb)
    · rcases h with h | h
      · exact ⟨true, h⟩
      · exact ⟨false, h⟩
  exact @instDecidableOr _ _ (this _ fun _ => inferInstance)
    (@instDecidableOr _ _ (this _ fun _ => inferInstance) inferInstance)

/-! `src/cmd/cql-proxy/model/project_config.go`.  Go nil-able pointers are
modelled as `Option`; a method on a possibly-nil pointer receiver becomes a
function on the `Option`. -/

/-- `ProjectMiscConfig`: misc config object (fields irrelevant to the claims
are kept as plain data). -/
structure ProjectMiscConfig where
  aliasName : String
  enabled : Option Bool
  enableSignUp : Option Bool
  enableSignUpVerification : Option Bool
  sessionAge : Int
  deriving Repr, DecidableEq

/-- `(*ProjectMiscConfig).IsEnabled`:
`c != nil && c.Enabled != nil && *c.Enabled`. -/
def ProjectMiscConfig.IsEnabled (c : Option ProjectMiscConfig) : Bool :=
  match c with
  | none => false
  | some cfg =>
    match cfg.enabled with
    | none => false
    | some b => b

/-- `(*ProjectMiscConfig).SupportSignUp`:
`c != nil && c.EnableSignUp != nil && *c.EnableSignUp`. -/
def ProjectMiscConfig.SupportSignUp (c : Option ProjectMiscConfig) : Bool :=
  match c with
  | none => false
  | some cfg =>
    match cfg.enableSignUp with
    | none => false
    | some b => b

/-- `(*ProjectMiscConfig).ShouldVerifyAfterSignUp`:
`c != nil && c.EnableSignUpVerification != nil && *c.EnableSignUpVerification`. -/
def ProjectMiscConfig.ShouldVerifyAfterSignUp (c : Option ProjectMiscConfig) : Bool :=
  match c with
  | none => false
  | some cfg =>
    match cfg.enableSignUpVerification with
    | none => false
    | some b => b

/-- `ProjectOAuthConfig`: oauth config object. -/
structure ProjectOAuthConfig where
  clientID : String
  clientSecret : String
  enabled : Option Bool
  deriving Repr, DecidableEq

/-- `(*ProjectOAuthConfig).IsEnabled`:
`c != nil && c.Enabled != nil && *c.Enabled`. -/
def ProjectOAuthConfig.IsEnabled (c : Option ProjectOAuthConfig) : Bool :=
  match c with
  | none => false
  | some cfg =>
    match cfg.enabled with
    | none => false
    | some b => b

/-! Registry lemmas. -/

theorem ServiceMap.load_store_self (m : ServiceMap) (id : DatabaseID) (v : ChainRPCService) :
    (m.store id v).load id = some v := by
  simp [ServiceMap.load, ServiceMap.store, List.find?]

theorem ServiceMap.load_delete_self (m : ServiceMap) (id : DatabaseID) :
    (m.delete id).load id = none := by
  unfold ServiceMap.load ServiceMap.delete
  rw [Option.map_eq_none', List.find?_eq_none]
  intro p hp
  simp only [List.mem_filter, decide_not] at hp
  simpa using hp.2

theorem ServiceMap.delete_of_load_none (m : ServiceMap) (id : DatabaseID)
    (h : m.load id = none) : m.delete id = m := by
  unfold ServiceMap.load at h
  rw [Option.map_eq_none', List.find?_eq_none] at h
  unfold ServiceMap.delete
  rw [List.filter_eq_self]
  intro p hp
  simpa using h p hp

/-! Closed forms of the seven dispatch methods on a registry hit and on a
registry miss. -/

theorem MuxService.AdviseNewBlock_of_some (s : MuxService) (req : MuxAdviseNewBlockReq)
    (resp : MuxAdviseNewBlockResp) (v : ChainRPCService)
    (h : s.serviceMap.load req.databaseID = some v) :
    s.AdviseNewBlock req resp =
      ({ envelope := req.envelope, databaseID := req.databaseID,
         adviseNewBlockResp := (v.adviseNewBlock req.adviseNewBlockReq resp.adviseNewBlockResp).1 },
       (v.adviseNewBlock req.adviseNewBlockReq resp.adviseNewBlockResp).2, true) := by
  unfold MuxService.AdviseNewBlock
  rw [h]

theorem MuxService.AdviseNewBlock_of_none (s : MuxService) (req : MuxAdviseNewBlockReq)
    (resp : MuxAdviseNewBlockResp)
    (h : s.serviceMap.load req.databaseID = none) :
    s.AdviseNewBlock req resp = (resp, some GoError.errUnknownMuxRequest, false) := by
  unfold MuxService.AdviseNewBlock
  rw [h]

theorem MuxService.AdviseBinLog_of_some (s : MuxService) (req : MuxAdviseBinLogReq)
    (resp : MuxAdviseBinLogResp) (v : ChainRPCService)
    (h : s.serviceMap.load req.databaseID = some v) :
    s.AdviseBinLog req resp =
      ({ envelope := req.envelope, databaseID := req.databaseID,
         adviseBinLogResp := (v.adviseBinLog req.adviseBinLogReq resp.adviseBinLogResp).1 },
       (v.adviseBinLog req.adviseBinLogReq resp.adviseBinLogResp).2, true) := by
  unfold MuxService.AdviseBinLog
  rw [h]

theorem MuxService.AdviseBinLog_of_none (s : MuxService) (req : MuxAdviseBinLogReq)
    (resp : MuxAdviseBinLogResp)
    (h : s.serviceMap.load req.databaseID = none) :
    s.AdviseBinLog req resp = (resp, some GoError.errUnknownMuxRequest, false) := by
  unfold MuxService.AdviseBinLog
  rw [h]

theorem MuxService.AdviseResponsedQuery_of_some (s : MuxService)
    (req : MuxAdviseResponsedQueryReq) (resp : MuxAdviseResponsedQueryResp)
    (v : ChainRPCService)
    (h : s.serviceMap.load req.databaseID = some v) :
    s.AdviseResponsedQuery req resp =
      ({ envelope := req.envelope, databaseID := req.databaseID,
         adviseResponsedQueryResp :=
           (v.adviseResponsedQuery req.adviseResponsedQueryReq resp.adviseResponsedQueryResp).1 },
       (v.adviseResponsedQuery req.adviseResponsedQueryReq resp.adviseResponsedQueryResp).2,
       true) := by
  unfold MuxService.AdviseResponsedQuery
  rw [h]

theorem MuxService.AdviseResponsedQuery_of_none (s : MuxService)
    (req : MuxAdviseResponsedQueryReq) (resp : MuxAdviseResponsedQueryResp)
    (h : s.serviceMap.load req.databaseID = none) :
    s.AdviseResponsedQuery req resp = (resp, some GoError.errUnknownMuxRequest, false) := by
  unfold MuxService.AdviseResponsedQuery
  rw [h]

theorem MuxService.AdviseAckedQuery_of_some (s : MuxService)
    (req : MuxAdviseAckedQueryReq) (resp : MuxAdviseAckedQueryResp) (v : ChainRPCService)
    (h : s.serviceMap.load req.databaseID = some v) :
    s.AdviseAckedQuery req resp =
      ({ envelope := req.envelope, databaseID := req.databaseID,
         adviseAckedQueryResp :=
           (v.adviseAckedQuery req.adviseAckedQueryReq resp.adviseAckedQueryResp).1 },
       (v.adviseAckedQuery req.adviseAckedQueryReq resp.adviseAckedQueryResp).2, true) := by
  unfold MuxService.AdviseAckedQuery
  rw [h]

theorem MuxService.AdviseAckedQuery_of_none (s : MuxService)
    (req : MuxAdviseAckedQueryReq) (resp : MuxAdviseAckedQueryResp)
    (h : s.serviceMap.load req.databaseID = none) :
    s.AdviseAckedQuery req resp = (resp, some GoError.errUnknownMuxRequest, false) := by
  unfold MuxService.AdviseAckedQuery
  rw [h]

theorem MuxService.FetchBlock_of_some (s : MuxService) (req : MuxFetchBlockReq)
    (resp : MuxFetchBlockResp) (v : ChainRPCService)
    (h : s.serviceMap.load req.databaseID = some v) :
    s.FetchBlock req resp =
      ({ envelope := req.envelope, databaseID := req.databaseID,
         fetchBlockResp := (v.fetchBlock req.fetchBlockReq resp.fetchBlockResp).1 },
       (v.fetchBlock req.fetchBlockReq resp.fetchBlockResp).2, true) := by
  unfold MuxService.FetchBlock
  rw [h]

theorem MuxService.FetchBlock_of_none (s : MuxService) (req : MuxFetchBlockReq)
    (resp : MuxFetchBlockResp)
    (h : s.serviceMap.load req.databaseID = none) :
    s.FetchBlock req resp = (resp, some GoError.errUnknownMuxRequest, false) := by
  unfold MuxService.FetchBlock
  rw [h]

theorem MuxService.FetchAckedQuery_of_some (s : MuxService)
    (req : MuxFetchAckedQueryReq) (resp : MuxFetchAckedQueryResp) (v : ChainRPCService)
    (h : s.serviceMap.load req.databaseID = some v) :
    s.FetchAckedQuery req resp =
      ({ envelope := req.envelope, databaseID := req.databaseID,
         fetchAckedQueryResp :=
           (v.fetchAckedQuery req.fetchAckedQueryReq resp.fetchAckedQueryResp).1 },
       (v.fetchAckedQuery req.fetchAckedQueryReq resp.fetchAckedQueryResp).2, true) := by
  unfold MuxService.FetchAckedQuery
  rw [h]

theorem MuxService.FetchAckedQuery_of_none (s : MuxService)
    (req : MuxFetchAckedQueryReq) (resp : MuxFetchAckedQueryResp)
    (h : s.serviceMap.load req.databaseID = none) :
    s.FetchAckedQuery req resp = (resp, some GoError.errUnknownMuxRequest, false) := by
  unfold MuxService.FetchAckedQuery
  rw [h]

theorem MuxService.SignBilling_of_some (s : MuxService) (req : MuxSignBillingReq)
    (resp : MuxSignBillingResp) (v : ChainRPCService)
    (h : s.serviceMap.load req.databaseID = some v) :
    s.SignBilling req resp =
      ({ envelope := req.envelope, databaseID := req.databaseID,
         signBillingResp := (v.signBilling req.signBillingReq resp.signBillingResp).1 },
       (v.signBilling req.signBillingReq resp.signBillingResp).2, true) := by
  unfold MuxService.SignBilling
  rw [h]

theorem MuxService.SignBilling_of_none (s : MuxService) (req : MuxSignBillingReq)
    (resp : MuxSignBillingResp)
    (h : s.serviceMap.load req.databaseID = none) :
    s.SignBilling req resp = (resp, some GoError.errUnknownMuxRequest, false) := by
  unfold MuxService.SignBilling
  rw [h]

/-- Chain-instance stub for concrete instantiations: every method writes `k`
into the inner response payload and returns no error. -/
def constService (k : Nat) : ChainRPCService where
  adviseNewBlock := fun _ _ => ({ payload := k }, none)
  adviseBinLog := fun _ _ => ({ payload := k }, none)
  adviseResponsedQuery := fun _ _ => ({ payload := k }, none)
  adviseAckedQuery := fun _ _ => ({ payload := k }, none)
  fetchBlock := fun _ _ => ({ payload := k }, none)
  fetchAckedQuery := fun _ _ => ({ payload := k }, none)
  signBilling := fun _ _ => ({ payload := k }, none)

/-- Chain-instance stub for concrete instantiations: every method leaves the
inner response unchanged and rejects with an instance-level error. -/
def rejectingService (msg : String) : ChainRPCService where
  adviseNewBlock := fun _ r => (r, some (GoError.instanceError msg))
  adviseBinLog := fun _ r => (r, some (GoError.instanceError msg))
  adviseResponsedQuery := fun _ r => (r, some (GoError.instanceError msg))
  adviseAckedQuery := fun _ r => (r, some (GoError.instanceError msg))
  fetchBlock := fun _ r => (r, some (GoError.instanceError msg))
  fetchAckedQuery := fun _ r => (r, some (GoError.instanceError msg))
  signBilling := fun _ r => (r, some (GoError.instanceError msg))

/-- C1: for every chain id with no entry in the registry, every mux dispatch
method (`AdviseNewBlock`, `AdviseBinLog`, `AdviseResponsedQuery`,
`AdviseAckedQuery`, `FetchBlock`, `FetchAckedQuery`, `SignBilling`) returns
the routing error `ErrUnknownMuxRequest`, does not invoke any chain-instance
method (ghost flag `false`), and returns the caller-supplied response object
unchanged. -/
theorem C1_unknown_chain_dispatch (s : MuxService) (id : DatabaseID)
    (h : s.serviceMap.load id = none) :
    (∀ (req : MuxAdviseNewBlockReq) (resp : MuxAdviseNewBlockResp), req.databaseID = id →
      s.AdviseNewBlock req resp = (resp, some GoError.errUnknownMuxRequest, false)) ∧
    (∀ (req : MuxAdviseBinLogReq) (resp : MuxAdviseBinLogResp), req.databaseID = id →
      s.AdviseBinLog req resp = (resp, some GoError.errUnknownMuxRequest, false)) ∧
    (∀ (req : MuxAdviseResponsedQueryReq) (resp : MuxAdviseResponsedQueryResp),
      req.databaseID = id →
      s.AdviseResponsedQuery req resp = (resp, some GoError.errUnknownMuxRequest, false)) ∧
    (∀ (req : MuxAdviseAckedQueryReq) (resp : MuxAdviseAckedQueryResp), req.databaseID = id →
      s.AdviseAckedQuery req resp = (resp, some GoError.errUnknownMuxRequest, false)) ∧
    (∀ (req : MuxFetchBlockReq) (resp : MuxFetchBlockResp), req.databaseID = id →
      s.FetchBlock req resp = (resp, some GoError.errUnknownMuxRequest, false)) ∧
    (∀ (req : MuxFetchAckedQueryReq) (resp : MuxFetchAckedQueryResp), req.databaseID = id →
      s.FetchAckedQuery req resp = (resp, some GoError.errUnknownMuxRequest, false)) ∧
    (∀ (req : MuxSignBillingReq) (resp : MuxSignBillingResp), req.databaseID = id →
      s.SignBilling req resp = (resp, some GoError.errUnknownMuxRequest, false)) := by
  refine ⟨fun req resp hid => ?_, fun req resp hid => ?_, fun req resp hid => ?_,
    fun req resp hid => ?_, fun req resp hid => ?_, fun req resp hid => ?_,
    fun req resp hid => ?_⟩
  · exact s.AdviseNewBlock_of_none req resp (by rw [hid]; exact h)
  · exact s.AdviseBinLog_of_none req resp (by rw [hid]; exact h)
  · exact s.AdviseResponsedQuery_of_none req resp (by rw [hid]; exact h)
  · exact s.AdviseAckedQuery_of_none req resp (by rw [hid]; exact h)
  · exact s.FetchBlock_of_none req resp (by rw [hid]; exact h)
  · exact s.FetchAckedQuery_of_none req resp (by rw [hid]; exact h)
  · exact s.SignBilling_of_none req resp (by rw [hid]; exact h)

/-- Witness for C1: on an empty registry, `AdviseNewBlock` for chain `"db1"`
fails with the routing error and leaves the supplied response untouched. -/
theorem C1_unknown_chain_dispatch_witness :
    ({ ServiceName := "Chain", serviceMap := [] } : MuxService).AdviseNewBlock
        { envelope := { nodeID := "n0", correlationID := 1 }, databaseID := "db1",
          adviseNewBlockReq := { payload := 7 } }
        { envelope := { nodeID := "caller", correlationID := 9 }, databaseID := "other",
          adviseNewBlockResp := { payload := 3 } } =
      ({ envelope := { nodeID := "caller", correlationID := 9 }, databaseID := "other",
         adviseNewBlockResp := { payload := 3 } },
       some GoError.errUnknownMuxRequest, false) :=
  (C1_unknown_chain_dispatch { ServiceName := "Chain", serviceMap := [] } "db1" rfl).1 _ _ rfl

/-- C2: `register` is last-write-wins.  After `register id A` then
`register id B`, the registry binds `id` to `B` (so it binds `id` to `A` only
if `A = B`), and every dispatch for `id` forwards to `B`'s method.
(`register` is total: it has no error result and no precondition on prior
registry state.) -/
theorem C2_register_last_write_wins (s : MuxService) (id : DatabaseID)
    (A B : ChainRPCService) :
    ((s.register id A).register id B).serviceMap.load id = some B ∧
    (((s.register id A).register id B).serviceMap.load id = some A → A = B) ∧
    (∀ (req : MuxAdviseNewBlockReq) (resp : MuxAdviseNewBlockResp), req.databaseID = id →
      ((s.register id A).register id B).AdviseNewBlock req resp =
        ({ envelope := req.envelope, databaseID := req.databaseID,
           adviseNewBlockResp :=
             (B.adviseNewBlock req.adviseNewBlockReq resp.adviseNewBlockResp).1 },
         (B.adviseNewBlock req.adviseNewBlockReq resp.adviseNewBlockResp).2, true)) ∧
    (∀ (req : MuxAdviseBinLogReq) (resp : MuxAdviseBinLogResp), req.databaseID = id →
      ((s.register id A).register id B).AdviseBinLog req resp =
        ({ envelope := req.envelope, databaseID := req.databaseID,
           adviseBinLogResp := (B.adviseBinLog req.adviseBinLogReq resp.adviseBinLogResp).1 },
         (B.adviseBinLog req.adviseBinLogReq resp.adviseBinLogResp).2, true)) ∧
    (∀ (req : MuxAdviseResponsedQueryReq) (resp : MuxAdviseResponsedQueryResp),
      req.databaseID = id →
      ((s.register id A).register id B).AdviseResponsedQuery req resp =
        ({ envelope := req.envelope, databaseID := req.databaseID,
           adviseResponsedQueryResp :=
             (B.adviseResponsedQuery req.adviseResponsedQueryReq
               resp.adviseResponsedQueryResp).1 },
         (B.adviseResponsedQuery req.adviseResponsedQueryReq
           resp.adviseResponsedQueryResp).2, true)) ∧
    (∀ (req : MuxAdviseAckedQueryReq) (resp : MuxAdviseAckedQueryResp), req.databaseID = id →
      ((s.register id A).register id B).AdviseAckedQuery req resp =
        ({ envelope := req.envelope, databaseID := req.databaseID,
           adviseAckedQueryResp :=
             (B.adviseAckedQuery req.adviseAckedQueryReq resp.adviseAckedQueryResp).1 },
         (B.adviseAckedQuery req.adviseAckedQueryReq resp.adviseAckedQueryResp).2, true)) ∧
    (∀ (req : MuxFetchBlockReq) (resp : MuxFetchBlockResp), req.databaseID = id →
      ((s.register id A).register id B).FetchBlock req resp =
        ({ envelope := req.envelope, databaseID := req.databaseID,
           fetchBlockResp := (B.fetchBlock req.fetchBlockReq resp.fetchBlockResp).1 },
         (B.fetchBlock req.fetchBlockReq resp.fetchBlockResp).2, true)) ∧
    (∀ (req : MuxFetchAckedQueryReq) (resp : MuxFetchAckedQueryResp), req.databaseID = id →
      ((s.register id A).register id B).FetchAckedQuery req resp =
        ({ envelope := req.envelope, databaseID := req.databaseID,
           fetchAckedQueryResp :=
             (B.fetchAckedQuery req.fetchAckedQueryReq resp.fetchAckedQueryResp).1 },
         (B.fetchAckedQuery req.fetchAckedQueryReq resp.fetchAckedQueryResp).2, true)) ∧
    (∀ (req : MuxSignBillingReq) (resp : MuxSignBillingResp), req.databaseID = id →
      ((s.register id A).register id B).SignBilling req resp =
        ({ envelope := req.envelope, databaseID := req.databaseID,
           signBillingResp := (B.signBilling req.signBillingReq resp.signBillingResp).1 },
         (B.signBilling req.signBillingReq resp.signBillingResp).2, true)) := by
  have hload : ((s.register id A).register id B).serviceMap.load id = some B :=
    ServiceMap.load_store_self _ id B
  refine ⟨hload, fun hA => ?_, fun req resp hid => ?_, fun req resp hid => ?_,
    fun req resp hid => ?_, fun req resp hid => ?_, fun req resp hid => ?_,
    fun req resp hid => ?_, fun req resp hid => ?_⟩
  · have := hload.symm.trans hA
    exact (Option.some.injEq _ _ ▸ this).symm
  · exact MuxService.AdviseNewBlock_of_some _ req resp B (by rw [hid]; exact hload)
  · exact MuxService.AdviseBinLog_of_some _ req resp B (by rw [hid]; exact hload)
  · exact MuxService.AdviseResponsedQuery_of_some _ req resp B (by rw [hid]; exact hload)
  · exact MuxService.AdviseAckedQuery_of_some _ req resp B (by rw [hid]; exact hload)
  · exact MuxService.FetchBlock_of_some _ req resp B (by rw [hid]; exact hload)
  · exact MuxService.FetchAckedQuery_of_some _ req resp B (by rw [hid]; exact hload)
  · exact MuxService.SignBilling_of_some _ req resp B (by rw [hid]; exact hload)

/-- Witness for C2: after registering `constService 1` then `constService 2`
under `"db1"`, `AdviseNewBlock` forwards to the second instance (the inner
response payload becomes `2`, not `1`). -/
theorem C2_register_last_write_wins_witness :
    ((({ ServiceName := "Chain", serviceMap := [] } : MuxService).register "db1"
        (constService 1)).register "db1" (constService 2)).AdviseNewBlock
        { envelope := { nodeID := "n0", correlationID := 1 }, databaseID := "db1",
          adviseNewBlockReq := { payload := 7 } }
        { envelope := { nodeID := "caller", correlationID := 9 }, databaseID := "other",
          adviseNewBlockResp := { payload := 3 } } =
      ({ envelope := { nodeID := "n0", correlationID := 1 }, databaseID := "db1",
         adviseNewBlockResp := { payload := 2 } }, none, true) :=
  (C2_register_last_write_wins _ "db1" (constService 1) (constService 2)).2.2.1 _ _ rfl

/-- C3: after `unregister id` the registry has no binding for `id` and every
dispatch for `id` fails with the routing error without invoking an instance;
`unregister` on an id with no binding is a no-op (the service is returned
exactly as it was) and produces no error (`unregister` is total). -/
theorem C3_unregister_removes_binding (s : MuxService) (id : DatabaseID) :
    (s.serviceMap.load id = none → s.unregister id = s) ∧
    (s.unregister id).serviceMap.load id = none ∧
    (∀ (req : MuxAdviseNewBlockReq) (resp : MuxAdviseNewBlockResp), req.databaseID = id →
      (s.unregister id).AdviseNewBlock req resp =
        (resp, some GoError.errUnknownMuxRequest, false)) ∧
    (∀ (req : MuxAdviseBinLogReq) (resp : MuxAdviseBinLogResp), req.databaseID = id →
      (s.unregister id).AdviseBinLog req resp =
        (resp, some GoError.errUnknownMuxRequest, false)) ∧
    (∀ (req : MuxAdviseResponsedQueryReq) (resp : MuxAdviseResponsedQueryResp),
      req.databaseID = id →
      (s.unregister id).AdviseResponsedQuery req resp =
        (resp, some GoError.errUnknownMuxRequest, false)) ∧
    (∀ (req : MuxAdviseAckedQueryReq) (resp : MuxAdviseAckedQueryResp), req.databaseID = id →
      (s.unregister id).AdviseAckedQuery req resp =
        (resp, some GoError.errUnknownMuxRequest, false)) ∧
    (∀ (req : MuxFetchBlockReq) (resp : MuxFetchBlockResp), req.databaseID = id →
      (s.unregister id).FetchBlock req resp =
        (resp, some GoError.errUnknownMuxRequest, false)) ∧
    (∀ (req : MuxFetchAckedQueryReq) (resp : MuxFetchAckedQueryResp), req.databaseID = id →
      (s.unregister id).FetchAckedQuery req resp =
        (resp, some GoError.errUnknownMuxRequest, false)) ∧
    (∀ (req : MuxSignBillingReq) (resp : MuxSignBillingResp), req.databaseID = id →
      (s.unregister id).SignBilling req resp =
        (resp, some GoError.errUnknownMuxRequest, false)) := by
  have hnone : (s.unregister id).serviceMap.load id = none :=
    ServiceMap.load_delete_self s.serviceMap id
  refine ⟨fun h => ?_, hnone, fun req resp hid => ?_, fun req resp hid => ?_,
    fun req resp hid => ?_, fun req resp hid => ?_, fun req resp hid => ?_,
    fun req resp hid => ?_, fun req resp hid => ?_⟩
  · unfold MuxService.unregister
    rw [ServiceMap.delete_of_load_none s.serviceMap id h]
  · exact MuxService.AdviseNewBlock_of_none _ req resp (by rw [hid]; exact hnone)
  · exact MuxService.AdviseBinLog_of_none _ req resp (by rw [hid]; exact hnone)
  · exact MuxService.AdviseResponsedQuery_of_none _ req resp (by rw [hid]; exact hnone)
  · exact MuxService.AdviseAckedQuery_of_none _ req resp (by rw [hid]; exact hnone)
  · exact MuxService.FetchBlock_of_none _ req resp (by rw [hid]; exact hnone)
  · exact MuxService.FetchAckedQuery_of_none _ req resp (by rw [hid]; exact hnone)
  · exact MuxService.SignBilling_of_none _ req resp (by rw [hid]; exact hnone)

/-- Witness for C3: unregistering `"db1"` from an empty registry is a no-op,
and after registering then unregistering `"db1"` a dispatch for it fails with
the routing error. -/
theorem C3_unregister_removes_binding_witness :
    (({ ServiceName := "Chain", serviceMap := [] } : MuxService).unregister "db1" =
      { ServiceName := "Chain", serviceMap := [] }) ∧
    ((({ ServiceName := "Chain", serviceMap := [] } : MuxService).register "db1"
        (constService 1)).unregister "db1").AdviseNewBlock
        { envelope := { nodeID := "n0", correlationID := 1 }, databaseID := "db1",
          adviseNewBlockReq := { payload := 7 } }
        { envelope := { nodeID := "caller", correlationID := 9 }, databaseID := "other",
          adviseNewBlockResp := { payload := 3 } } =
      ({ envelope := { nodeID := "caller", correlationID := 9 }, databaseID := "other",
         adviseNewBlockResp := { payload := 3 } },
       some GoError.errUnknownMuxRequest, false) :=
  ⟨(C3_unregister_removes_binding { ServiceName := "Chain", serviceMap := [] } "db1").1 rfl,
    (C3_unregister_removes_binding
      (({ ServiceName := "Chain", serviceMap := [] } : MuxService).register "db1"
        (constService 1)) "db1").2.2.1 _ _ rfl⟩

/-- C4: for every dispatch whose chain id is registered, the response's
envelope equals the request's envelope and the response's `DatabaseID` equals
the request's, for all seven mux routing methods. -/
theorem C4_envelope_and_id_copied (s : MuxService) :
    (∀ (req : MuxAdviseNewBlockReq) (resp : MuxAdviseNewBlockResp) (v : ChainRPCService),
      s.serviceMap.load req.databaseID = some v →
      (s.AdviseNewBlock req resp).1.envelope = req.envelope ∧
      (s.AdviseNewBlock req resp).1.databaseID = req.databaseID) ∧
    (∀ (req : MuxAdviseBinLogReq) (resp : MuxAdviseBinLogResp) (v : ChainRPCService),
      s.serviceMap.load req.databaseID = some v →
      (s.AdviseBinLog req resp).1.envelope = req.envelope ∧
      (s.AdviseBinLog req resp).1.databaseID = req.databaseID) ∧
    (∀ (req : MuxAdviseResponsedQueryReq) (resp : MuxAdviseResponsedQueryResp)
      (v : ChainRPCService),
      s.serviceMap.load req.databaseID = some v →
      (s.AdviseResponsedQuery req resp).1.envelope = req.envelope ∧
      (s.AdviseResponsedQuery req resp).1.databaseID = req.databaseID) ∧
    (∀ (req : MuxAdviseAckedQueryReq) (resp : MuxAdviseAckedQueryResp) (v : ChainRPCService),
      s.serviceMap.load req.databaseID = some v →
      (s.AdviseAckedQuery req resp).1.envelope = req.envelope ∧
      (s.AdviseAckedQuery req resp).1.databaseID = req.databaseID) ∧
    (∀ (req : MuxFetchBlockReq) (resp : MuxFetchBlockResp) (v : ChainRPCService),
      s.serviceMap.load req.databaseID = some v →
      (s.FetchBlock req resp).1.envelope = req.envelope ∧
      (s.FetchBlock req resp).1.databaseID = req.databaseID) ∧
    (∀ (req : MuxFetchAckedQueryReq) (resp : MuxFetchAckedQueryResp) (v : ChainRPCService),
      s.serviceMap.load req.databaseID = some v →
      (s.FetchAckedQuery req resp).1.envelope = req.envelope ∧
      (s.FetchAckedQuery req resp).1.databaseID = req.databaseID) ∧
    (∀ (req : MuxSignBillingReq) (resp : MuxSignBillingResp) (v : ChainRPCService),
      s.serviceMap.load req.databaseID = some v →
      (s.SignBilling req resp).1.envelope = req.envelope ∧
      (s.SignBilling req resp).1.databaseID = req.databaseID) := by
  refine ⟨fun req resp v h => ?_, fun req resp v h => ?_, fun req resp v h => ?_,
    fun req resp v h => ?_, fun req resp v h => ?_, fun req resp v h => ?_,
    fun req resp v h => ?_⟩
  · rw [MuxService.AdviseNewBlock_of_some s req resp v h]; exact ⟨rfl, rfl⟩
  · rw [MuxService.AdviseBinLog_of_some s req resp v h]; exact ⟨rfl, rfl⟩
  · rw [MuxService.AdviseResponsedQuery_of_some s req resp v h]; exact ⟨rfl, rfl⟩
  · rw [MuxService.AdviseAckedQuery_of_some s req resp v h]; exact ⟨rfl, rfl⟩
  · rw [MuxService.FetchBlock_of_some s req resp v h]; exact ⟨rfl, rfl⟩
  · rw [MuxService.FetchAckedQuery_of_some s req resp v h]; exact ⟨rfl, rfl⟩
  · rw [MuxService.SignBilling_of_some s req resp v h]; exact ⟨rfl, rfl⟩

/-- Witness for C4: with `"db1"` registered, a `SignBilling` dispatch echoes
the request's envelope and database id on the response. -/
theorem C4_envelope_and_id_copied_witness :
    ((({ ServiceName := "Chain", serviceMap := [] } : MuxService).register "db1"
        (constService 5)).SignBilling
        { envelope := { nodeID := "n0", correlationID := 1 }, databaseID := "db1",
          signBillingReq := { payload := 7 } }
        { envelope := { nodeID := "caller", correlationID := 9 }, databaseID := "other",
          signBillingResp := { payload := 3 } }).1.envelope =
      { nodeID := "n0", correlationID := 1 } ∧
    ((({ ServiceName := "Chain", serviceMap := [] } : MuxService).register "db1"
        (constService 5)).SignBilling
        { envelope := { nodeID := "n0", correlationID := 1 }, databaseID := "db1",
          signBillingReq := { payload := 7 } }
        { envelope := { nodeID := "caller", correlationID := 9 }, databaseID := "other",
          signBillingResp := { payload := 3 } }).1.databaseID = "db1" :=
  (C4_envelope_and_id_copied
    (({ ServiceName := "Chain", serviceMap := [] } : MuxService).register "db1"
      (constService 5))).2.2.2.2.2.2 _ _ (constService 5) rfl

/-- C5: for every registered chain id and every mux routing method, the error
returned by the router is exactly the error returned by the instance's
corresponding method (instance errors are propagated unchanged), and whenever
the instance's error is not the routing sentinel `ErrUnknownMuxRequest` the
router's result is not the sentinel either (routing errors are never
conflated with instance-level rejections). -/
theorem C5_instance_error_propagated (s : MuxService) :
    (∀ (req : MuxAdviseNewBlockReq) (resp : MuxAdviseNewBlockResp) (v : ChainRPCService),
      s.serviceMap.load req.databaseID = some v →
      (s.AdviseNewBlock req resp).2.1 =
        (v.adviseNewBlock req.adviseNewBlockReq resp.adviseNewBlockResp).2 ∧
      ((v.adviseNewBlock req.adviseNewBlockReq resp.adviseNewBlockResp).2 ≠
          some GoError.errUnknownMuxRequest →
        (s.AdviseNewBlock req resp).2.1 ≠ some GoError.errUnknownMuxRequest)) ∧
    (∀ (req : MuxAdviseBinLogReq) (resp : MuxAdviseBinLogResp) (v : ChainRPCService),
      s.serviceMap.load req.databaseID = some v →
      (s.AdviseBinLog req resp).2.1 =
        (v.adviseBinLog req.adviseBinLogReq resp.adviseBinLogResp).2 ∧
      ((v.adviseBinLog req.adviseBinLogReq resp.adviseBinLogResp).2 ≠
          some GoError.errUnknownMuxRequest →
        (s.AdviseBinLog req resp).2.1 ≠ some GoError.errUnknownMuxRequest)) ∧
    (∀ (req : MuxAdviseResponsedQueryReq) (resp : MuxAdviseResponsedQueryResp)
      (v : ChainRPCService),
      s.serviceMap.load req.databaseID = some v →
      (s.AdviseResponsedQuery req resp).2.1 =
        (v.adviseResponsedQuery req.adviseResponsedQueryReq resp.adviseResponsedQueryResp).2 ∧
      ((v.adviseResponsedQuery req.adviseResponsedQueryReq resp.adviseResponsedQueryResp).2 ≠
          some GoError.errUnknownMuxRequest →
        (s.AdviseResponsedQuery req resp).2.1 ≠ some GoError.errUnknownMuxRequest)) ∧
    (∀ (req : MuxAdviseAckedQueryReq) (resp : MuxAdviseAckedQueryResp) (v : ChainRPCService),
      s.serviceMap.load req.databaseID = some v →
      (s.AdviseAckedQuery req resp).2.1 =
        (v.adviseAckedQuery req.adviseAckedQueryReq resp.adviseAckedQueryResp).2 ∧
      ((v.adviseAckedQuery req.adviseAckedQueryReq resp.adviseAckedQueryResp).2 ≠
          some GoError.errUnknownMuxRequest →
        (s.AdviseAckedQuery req resp).2.1 ≠ some GoError.errUnknownMuxRequest)) ∧
    (∀ (req : MuxFetchBlockReq) (resp : MuxFetchBlockResp) (v : ChainRPCService),
      s.serviceMap.load req.databaseID = some v →
      (s.FetchBlock req resp).2.1 = (v.fetchBlock req.fetchBlockReq resp.fetchBlockResp).2 ∧
      ((v.fetchBlock req.fetchBlockReq resp.fetchBlockResp).2 ≠
          some GoError.errUnknownMuxRequest →
        (s.FetchBlock req resp).2.1 ≠ some GoError.errUnknownMuxRequest)) ∧
    (∀ (req : MuxFetchAckedQueryReq) (resp : MuxFetchAckedQueryResp) (v : ChainRPCService),
      s.serviceMap.load req.databaseID = some v →
      (s.FetchAckedQuery req resp).2.1 =
        (v.fetchAckedQuery req.fetchAckedQueryReq resp.fetchAckedQueryResp).2 ∧
      ((v.fetchAckedQuery req.fetchAckedQueryReq resp.fetchAckedQueryResp).2 ≠
          some GoError.errUnknownMuxRequest →
        (s.FetchAckedQuery req resp).2.1 ≠ some GoError.errUnknownMuxRequest)) ∧
    (∀ (req : MuxSignBillingReq) (resp : MuxSignBillingResp) (v : ChainRPCService),
      s.serviceMap.load req.databaseID = some v →
      (s.SignBilling req resp).2.1 = (v.signBilling req.signBillingReq resp.signBillingResp).2 ∧
      ((v.signBilling req.signBillingReq resp.signBillingResp).2 ≠
          some GoError.errUnknownMuxRequest →
        (s.SignBilling req resp).2.1 ≠ some GoError.errUnknownMuxRequest)) := by
  refine ⟨fun req resp v h => ?_, fun req resp v h => ?_, fun req resp v h => ?_,
    fun req resp v h => ?_, fun req resp v h => ?_, fun req resp v h => ?_,
    fun req resp v h => ?_⟩
  · rw [MuxService.AdviseNewBlock_of_some s req resp v h]; exact ⟨rfl, fun hne => hne⟩
  · rw [MuxService.AdviseBinLog_of_some s req resp v h]; exact ⟨rfl, fun hne => hne⟩
  · rw [MuxService.AdviseResponsedQuery_of_some s req resp v h]; exact ⟨rfl, fun hne => hne⟩
  · rw [MuxService.AdviseAckedQuery_of_some s req resp v h]; exact ⟨rfl, fun hne => hne⟩
  · rw [MuxService.FetchBlock_of_some s req resp v h]; exact ⟨rfl, fun hne => hne⟩
  · rw [MuxService.FetchAckedQuery_of_some s req resp v h]; exact ⟨rfl, fun hne => hne⟩
  · rw [MuxService.SignBilling_of_some s req resp v h]; exact ⟨rfl, fun hne => hne⟩

/-- Witness for C5: with `"db1"` registered to an instance that rejects
billing, the router returns that instance error verbatim. -/
theorem C5_instance_error_propagated_witness :
    ((({ ServiceName := "Chain", serviceMap := [] } : MuxService).register "db1"
        (rejectingService "billing amount mismatch")).SignBilling
        { envelope := { nodeID := "n0", correlationID := 1 }, databaseID := "db1",
          signBillingReq := { payload := 7 } }
        { envelope := { nodeID := "caller", correlationID := 9 }, databaseID := "other",
          signBillingResp := { payload := 3 } }).2.1 =
      some (GoError.instanceError "billing amount mismatch") :=
  ((C5_instance_error_propagated
    (({ ServiceName := "Chain", serviceMap := [] } : MuxService).register "db1"
      (rejectingService "billing amount mismatch"))).2.2.2.2.2.2
    { envelope := { nodeID := "n0", correlationID := 1 }, databaseID := "db1",
      signBillingReq := { payload := 7 } }
    { envelope := { nodeID := "caller", correlationID := 9 }, databaseID := "other",
      signBillingResp := { payload := 3 } }
    (rejectingService "billing amount mismatch") rfl).1

/-- C8: for every mux dispatch method and registered chain id, the envelope
and database id are copied onto the response before the instance runs, so
even when the instance returns an error the returned response carries the
request's envelope and chain identifier while that error is propagated. -/
theorem C8_resp_fields_survive_instance_error (s : MuxService) :
    (∀ (req : MuxAdviseNewBlockReq) (resp : MuxAdviseNewBlockResp) (v : ChainRPCService)
      (e : GoError),
      s.serviceMap.load req.databaseID = some v →
      (v.adviseNewBlock req.adviseNewBlockReq resp.adviseNewBlockResp).2 = some e →
      (s.AdviseNewBlock req resp).1.envelope = req.envelope ∧
      (s.AdviseNewBlock req resp).1.databaseID = req.databaseID ∧
      (s.AdviseNewBlock req resp).2.1 = some e) ∧
    (∀ (req : MuxAdviseBinLogReq) (resp : MuxAdviseBinLogResp) (v : ChainRPCService)
      (e : GoError),
      s.serviceMap.load req.databaseID = some v →
      (v.adviseBinLog req.adviseBinLogReq resp.adviseBinLogResp).2 = some e →
      (s.AdviseBinLog req resp).1.envelope = req.envelope ∧
      (s.AdviseBinLog req resp).1.databaseID = req.databaseID ∧
      (s.AdviseBinLog req resp).2.1 = some e) ∧
    (∀ (req : MuxAdviseResponsedQueryReq) (resp : MuxAdviseResponsedQueryResp)
      (v : ChainRPCService) (e : GoError),
      s.serviceMap.load req.databaseID = some v →
      (v.adviseResponsedQuery req.adviseResponsedQueryReq resp.adviseResponsedQueryResp).2 =
        some e →
      (s.AdviseResponsedQuery req resp).1.envelope = req.envelope ∧
      (s.AdviseResponsedQuery req resp).1.databaseID = req.databaseID ∧
      (s.AdviseResponsedQuery req resp).2.1 = some e) ∧
    (∀ (req : MuxAdviseAckedQueryReq) (resp : MuxAdviseAckedQueryResp) (v : ChainRPCService)
      (e : GoError),
      s.serviceMap.load req.databaseID = some v →
      (v.adviseAckedQuery req.adviseAckedQueryReq resp.adviseAckedQueryResp).2 = some e →
      (s.AdviseAckedQuery req resp).1.envelope = req.envelope ∧
      (s.AdviseAckedQuery req resp).1.databaseID = req.databaseID ∧
      (s.AdviseAckedQuery req resp).2.1 = some e) ∧
    (∀ (req : MuxFetchBlockReq) (resp : MuxFetchBlockResp) (v : ChainRPCService)
      (e : GoError),
      s.serviceMap.load req.databaseID = some v →
      (v.fetchBlock req.fetchBlockReq resp.fetchBlockResp).2 = some e →
      (s.FetchBlock req resp).1.envelope = req.envelope ∧
      (s.FetchBlock req resp).1.databaseID = req.databaseID ∧
      (s.FetchBlock req resp).2.1 = some e) ∧
    (∀ (req : MuxFetchAckedQueryReq) (resp : MuxFetchAckedQueryResp) (v : ChainRPCService)
      (e : GoError),
      s.serviceMap.load req.databaseID = some v →
      (v.fetchAckedQuery req.fetchAckedQueryReq resp.fetchAckedQueryResp).2 = some e →
      (s.FetchAckedQuery req resp).1.envelope = req.envelope ∧
      (s.FetchAckedQuery req resp).1.databaseID = req.databaseID ∧
      (s.FetchAckedQuery req resp).2.1 = some e) ∧
    (∀ (req : MuxSignBillingReq) (resp : MuxSignBillingResp) (v : ChainRPCService)
      (e : GoError),
      s.serviceMap.load req.databaseID = some v →
      (v.signBilling req.signBillingReq resp.signBillingResp).2 = some e →
      (s.SignBilling req resp).1.envelope = req.envelope ∧
      (s.SignBilling req resp).1.databaseID = req.databaseID ∧
      (s.SignBilling req resp).2.1 = some e) := by
  refine ⟨fun req resp v e h he => ?_, fun req resp v e h he => ?_,
    fun req resp v e h he => ?_, fun req resp v e h he => ?_, fun req resp v e h he => ?_,
    fun req resp v e h he => ?_, fun req resp v e h he => ?_⟩
  · rw [MuxService.AdviseNewBlock_of_some s req resp v h]; exact ⟨rfl, rfl, he⟩
  · rw [MuxService.AdviseBinLog_of_some s req resp v h]; exact ⟨rfl, rfl, he⟩
  · rw [MuxService.AdviseResponsedQuery_of_some s req resp v h]; exact ⟨rfl, rfl, he⟩
  · rw [MuxService.AdviseAckedQuery_of_some s req resp v h]; exact ⟨rfl, rfl, he⟩
  · rw [MuxService.FetchBlock_of_some s req resp v h]; exact ⟨rfl, rfl, he⟩
  · rw [MuxService.FetchAckedQuery_of_some s req resp v h]; exact ⟨rfl, rfl, he⟩
  · rw [MuxService.SignBilling_of_some s req resp v h]; exact ⟨rfl, rfl, he⟩

/-- Witness for C8: with `"db1"` registered to a rejecting instance, a failed
`FetchAckedQuery` dispatch still carries the request's envelope and database
id on the response. -/
theorem C8_resp_fields_survive_instance_error_witness :
    ((({ ServiceName := "Chain", serviceMap := [] } : MuxService).register "db1"
        (rejectingService "no such query")).FetchAckedQuery
        { envelope := { nodeID := "n0", correlationID := 1 }, databaseID := "db1",
          fetchAckedQueryReq := { payload := 7 } }
        { envelope := { nodeID := "caller", correlationID := 9 }, databaseID := "other",
          fetchAckedQueryResp := { payload := 3 } }).1.envelope =
      { nodeID := "n0", correlationID := 1 } ∧
    ((({ ServiceName := "Chain", serviceMap := [] } : MuxService).register "db1"
        (rejectingService "no such query")).FetchAckedQuery
        { envelope := { nodeID := "n0", correlationID := 1 }, databaseID := "db1",
          fetchAckedQueryReq := { payload := 7 } }
        { envelope := { nodeID := "caller", correlationID := 9 }, databaseID := "other",
          fetchAckedQueryResp := { payload := 3 } }).2.1 =
      some (GoError.instanceError "no such query") := by
  have h := (C8_resp_fields_survive_instance_error
    (({ ServiceName := "Chain", serviceMap := [] } : MuxService).register "db1"
      (rejectingService "no such query"))).2.2.2.2.2.1
    { envelope := { nodeID := "n0", correlationID := 1 }, databaseID := "db1",
      fetchAckedQueryReq := { payload := 7 } }
    { envelope := { nodeID := "caller", correlationID := 9 }, databaseID := "other",
      fetchAckedQueryResp := { payload := 3 } }
    (rejectingService "no such query") (GoError.instanceError "no such query") rfl rfl
  exact ⟨h.1, h.2.2⟩

/-- Counterexample for C6: `MuxService` (src/sqlchain/mux.go) has no
`FetchLastBlock` dispatch method — the claim that `FetchLastBlock` is
dispatchable through the mux router is false. -/
theorem C6_no_fetch_last_block_route :
    ¬ ∃ m : MuxMethod, m.name = "FetchLastBlock" := by decide

/-- C6 (amended): the mux service routes exactly the seven operations
`AdviseNewBlock`, `AdviseBinLog`, `AdviseResponsedQuery`, `AdviseAckedQuery`,
`FetchBlock`, `FetchAckedQuery`, `SignBilling`; neither `FetchLastBlock` nor
`FetchBlockByCount` is among them, and the `FetchLastBlockReq` message
(src/types/bprpc.go, block-producer RPC) carries nothing besides an envelope
— in particular no chain identifier to route on. -/
theorem C6_mux_method_catalog :
    (∀ m : MuxMethod, m.name ∈ (["AdviseNewBlock", "AdviseBinLog", "AdviseResponsedQuery",
      "AdviseAckedQuery", "FetchBlock", "FetchAckedQuery", "SignBilling"] : List String)) ∧
    (∀ nm ∈ (["AdviseNewBlock", "AdviseBinLog", "AdviseResponsedQuery", "AdviseAckedQuery",
      "FetchBlock", "FetchAckedQuery", "SignBilling"] : List String),
      ∃ m : MuxMethod, m.name = nm) ∧
    (∀ m : MuxMethod, m.name ≠ "FetchLastBlock" ∧ m.name ≠ "FetchBlockByCount") ∧
    (∀ a b : FetchLastBlockReq, a.envelope = b.envelope → a = b) := by
  refine ⟨by decide, by decide, by decide, fun a b h => ?_⟩
  cases a
  cases b
  cases h
  rfl

/-- Witness for C6 (amended): `SignBilling` is in the routed catalog, and a
`FetchLastBlockReq` is determined by its envelope alone. -/
theorem C6_mux_method_catalog_witness :
    (∃ m : MuxMethod, m.name = "SignBilling") ∧
    (({ envelope := { nodeID := "n0", correlationID := 1 } } : FetchLastBlockReq) =
      { envelope := { nodeID := "n0", correlationID := 1 } }) :=
  ⟨C6_mux_method_catalog.2.1 "SignBilling" (by decide),
    C6_mux_method_catalog.2.2.2
      { envelope := { nodeID := "n0", correlationID := 1 } }
      { envelope := { nodeID := "n0", correlationID := 1 } } rfl⟩

/-- C7: the query lifecycle is one-directional.  Every lifecycle step weakly
advances the state's position along
Submitted → Responsed → Acked → Committed → (terminal) Rejected and never
regresses; no step leaves Rejected; `AdviseAckedQuery` on a query that has
not passed `AdviseResponsedQuery` is rejected with an error and does not
change the state; after the correct Responsed-then-Acked order the query is
observable as Acked. -/
theorem C7_query_lifecycle_one_directional :
    (∀ st st' : QueryState, QueryStep st st' → st.rank ≤ st'.rank) ∧
    (∀ st' : QueryState, QueryStep .rejected st' → st' = .rejected) ∧
    (∀ v : Bool, (stepAckedQuery v .submitted).1 = .submitted ∧
      (stepAckedQuery v .submitted).2 ≠ none) ∧
    ((stepResponsedQuery true .submitted).1 = .responsed ∧
      (stepResponsedQuery true .submitted).2 = none) ∧
    ((stepAckedQuery true .responsed).1 = .acked ∧
      (stepAckedQuery true .responsed).2 = none) := by decide

/-- Witness for C7: Submitted → Responsed is a lifecycle step and it does not
regress. -/
theorem C7_query_lifecycle_one_directional_witness :
    QueryStep .submitted .responsed ∧
    QueryState.rank .submitted ≤ QueryState.rank .responsed :=
  ⟨by decide, C7_query_lifecycle_one_directional.1 .submitted .responsed (by decide)⟩

/-- C10: the project-config predicates are nil-safe total functions: each
returns `false` when the receiver is nil or the corresponding flag pointer is
nil, and returns the pointed-to boolean otherwise. -/
theorem C10_config_predicates_nil_safe :
    ProjectMiscConfig.IsEnabled none = false ∧
    ProjectMiscConfig.SupportSignUp none = false ∧
    ProjectMiscConfig.ShouldVerifyAfterSignUp none = false ∧
    ProjectOAuthConfig.IsEnabled none = false ∧
    (∀ cfg : ProjectMiscConfig, cfg.enabled = none →
      ProjectMiscConfig.IsEnabled (some cfg) = false) ∧
    (∀ cfg : ProjectMiscConfig, cfg.enableSignUp = none →
      ProjectMiscConfig.SupportSignUp (some cfg) = false) ∧
    (∀ cfg : ProjectMiscConfig, cfg.enableSignUpVerification = none →
      ProjectMiscConfig.ShouldVerifyAfterSignUp (some cfg) = false) ∧
    (∀ cfg : ProjectOAuthConfig, cfg.enabled = none →
      ProjectOAuthConfig.IsEnabled (some cfg) = false) ∧
    (∀ (cfg : ProjectMiscConfig) (b : Bool), cfg.enabled = some b →
      ProjectMiscConfig.IsEnabled (some cfg) = b) ∧
    (∀ (cfg : ProjectMiscConfig) (b : Bool), cfg.enableSignUp = some b →
      ProjectMiscConfig.SupportSignUp (some cfg) = b) ∧
    (∀ (cfg : ProjectMiscConfig) (b : Bool), cfg.enableSignUpVerification = some b →
      ProjectMiscConfig.ShouldVerifyAfterSignUp (some cfg) = b) ∧
    (∀ (cfg : ProjectOAuthConfig) (b : Bool), cfg.enabled = some b →
      ProjectOAuthConfig.IsEnabled (some cfg) = b) := by
  refine ⟨rfl, rfl, rfl, rfl, fun cfg h => ?_, fun cfg h => ?_, fun cfg h => ?_,
    fun cfg h => ?_, fun cfg b h => ?_, fun cfg b h => ?_, fun cfg b h => ?_,
    fun cfg b h => ?_⟩
  · simp [ProjectMiscConfig.IsEnabled, h]
  · simp [ProjectMiscConfig.SupportSignUp, h]
  · simp [ProjectMiscConfig.ShouldVerifyAfterSignUp, h]
  · simp [ProjectOAuthConfig.IsEnabled, h]
  · simp [ProjectMiscConfig.IsEnabled, h]
  · simp [ProjectMiscConfig.SupportSignUp, h]
  · simp [ProjectMiscConfig.ShouldVerifyAfterSignUp, h]
  · simp [ProjectOAuthConfig.IsEnabled, h]

/-- Witness for C10: a config with `enabled = some true` and a nil
`enableSignUp` pointer is enabled but does not support signing up. -/
theorem C10_config_predicates_nil_safe_witness :
    ProjectMiscConfig.IsEnabled
      (some { aliasName := "p", enabled := some true, enableSignUp := none,
              enableSignUpVerification := none, sessionAge := 0 }) = true ∧
    ProjectMiscConfig.SupportSignUp
      (some { aliasName := "p", enabled := some true, enableSignUp := none,
              enableSignUpVerification := none, sessionAge := 0 }) = false :=
  ⟨C10_config_predicates_nil_safe.2.2.2.2.2.2.2.2.1
      { aliasName := "p", enabled := some true, enableSignUp := none,
        enableSignUpVerification := none, sessionAge := 0 } true rfl,
    C10_config_predicates_nil_safe.2.2.2.2.2.1
      { aliasName := "p", enabled := some true, enableSignUp := none,
        enableSignUpVerification := none, sessionAge := 0 } rfl⟩

end CovenantSQL
